import Mathlib

/-
Verification of the ronnyx conversational-assistant repository.

The development shallowly embeds the Python sources:
  app/api/deps.py, app/api/routers.py      (session store, chat endpoint glue)
  app/core/agent.py                        (agent loop + inline Notion tools)
  app/core/notion_tools.py                 (standalone Notion tool module)
  app/core/tools/github_tools.py           (GitHub tool module)
  app/core/prompts.py                      (system prompt text)

Modelling conventions, used uniformly in every embedded function:
  * JSON values exchanged with the HTTP APIs are the inductive `JVal`.
  * `dict.get(k)` is `JVal.get?`, `dict.get(k, d)` is `JVal.getD`; calling
    `.get` on a non-dict value is modelled as a miss (the sources only do
    this when a remote API returns a malformed body).
  * Python truthiness is `JVal.truthy` / `envFalsy` / `strTruthy` /
    `pyTruthyO`; `x or y` on values is `pyOr`.
  * Iterating a JSON value (`for x in v`) is `JVal.elems`; iterating a
    non-array is modelled as yielding nothing.
  * Exceptions are `Except String`: a tool call evaluates to
    `Except.error e` exactly when the Python function would raise, and to
    `Except.ok v` when it returns the dict `v`.
  * The HTTP transport is an oracle `Http`; a call can raise at request
    time (network failure) and the response body can fail to parse as
    JSON (so `.json()` raises).  Each embedded function also returns the
    list of HTTP requests it issued, in order.
  * `requests` never terminates the `while True` pagination loop of
    `_find_notion_user_id_by_name` on its own, so the loop takes a fuel
    argument; exhausted fuel is an error outcome, reachable only for
    oracles that keep answering `has_more`.
  * `os.getenv` reads are passed in as explicit environment records.
-/

/-- A JSON-like value as produced and consumed by the Python tool
functions: the payloads built for the Notion API and the result
dictionaries the tools return. -/
inductive JVal where
  | null : JVal
  | bool : Bool → JVal
  | num : Int → JVal
  | str : String → JVal
  | arr : List JVal → JVal
  | obj : List (String × JVal) → JVal

/-- Python `dict.get(k)`: the value at key `k`, or `none` when the key is
absent or the value is not a dict. -/
def JVal.get? : JVal → String → Option JVal
  | .obj kvs, k => (kvs.find? (fun p => p.1 == k)).map (fun p => p.2)
  | _, _ => none

/-- Python `dict.get(k, d)`. -/
def JVal.getD (v : JVal) (k : String) (d : JVal) : JVal :=
  (v.get? k).getD d

/-- Python truthiness of a JSON value. -/
def JVal.truthy : JVal → Bool
  | .null => false
  | .bool b => b
  | .num n => n != 0
  | .str s => !s.isEmpty
  | .arr xs => !xs.isEmpty
  | .obj kvs => !kvs.isEmpty

/-- Python iteration over a JSON value: the elements of an array, nothing
otherwise. -/
def JVal.elems : JVal → List JVal
  | .arr xs => xs
  | _ => []

/-- The characters of a JSON string, empty for non-strings; used where the
Python code feeds a value into a string operation. -/
def JVal.asStr : JVal → String
  | .str s => s
  | _ => ""

/-- Python `x or y`: the first operand when truthy, otherwise the second. -/
def pyOr (x y : JVal) : JVal :=
  if x.truthy then x else y

/-- Truthiness of an optional JSON value (Python `None` is falsy). -/
def pyTruthyO : Option JVal → Bool
  | none => false
  | some v => v.truthy

/-- Python `not s` on an `os.getenv` result: true for an unset variable
and for the empty string. -/
def envFalsy : Option String → Bool
  | none => true
  | some s => s.isEmpty

/-- Python truthiness of an optional string argument. -/
def strTruthy : Option String → Bool
  | none => false
  | some s => !s.isEmpty

/-- An optional string rendered as a JSON value (Python `None` becomes
JSON null). -/
def optStrJ : Option String → JVal
  | none => .null
  | some s => .str s

/-- Auxiliary to `pyInStr`: containment of one character list in another. -/
def infixChars (needle : List Char) : List Char → Bool
  | [] => needle.isEmpty
  | c :: rest => needle.isPrefixOf (c :: rest) || infixChars needle rest

/-- Python `needle in hay` on strings: substring containment. -/
def pyInStr (needle hay : String) : Bool :=
  infixChars needle.toList hay.toList

/-- One outbound HTTP request as issued through the `requests` library. -/
structure HttpRequest where
  method : String
  url : String
  headers : List (String × String)
  jsonBody : Option JVal
  params : List (String × JVal)

/-- What the transport does with a request: raise at call time, or deliver
a response with a status code, a text body, and a `.json()` outcome that
may itself raise on a malformed body. -/
inductive HttpOutcome where
  | raise : String → HttpOutcome
  | resp : Int → String → Except String JVal → HttpOutcome

/-- The HTTP transport oracle. -/
def Http : Type := HttpRequest → HttpOutcome

/-- Outcome of running a Python function body: the value it returns, or
the exception it raises. -/
def PyResult (α : Type) : Type := Except String α

/-- The environment variables read by the Notion tool functions. -/
structure NotionEnv where
  DATABASE_ID : Option String
  NOTION_TOKEN : Option String
  NOTION_VERSION : Option String

namespace notion_tools

/-- Embeds `_notion_headers` (notion_tools.py lines 8-13). -/
def _notion_headers (token : String) (env : NotionEnv) : List (String × String) :=
  [("Authorization", "Bearer " ++ token),
   ("Notion-Version", env.NOTION_VERSION.getD "2022-06-28"),
   ("Content-Type", "application/json")]

/-- First user in a Notion users page whose name contains the searched
name case-insensitively; embeds the inner `for user in results` loop of
`_find_notion_user_id_by_name`.  The outer `some` marks the early return,
the inner value is `user.get("id")`. -/
def first_matching_user (name : String) : List JVal → Option (Option JVal)
  | [] => none
  | user :: rest =>
    let user_name := (pyOr (user.getD "name" .null) (.str "")).asStr
    if pyInStr name.toLower user_name.toLower then some (user.get? "id")
    else first_matching_user name rest

/-- Embeds the `while True` pagination loop of
`_find_notion_user_id_by_name` (notion_tools.py lines 23-35), with fuel
for the unbounded cursor walk and an accumulator for issued requests. -/
def _find_notion_user_id_loop (http : Http) (env : NotionEnv) (name token : String) :
    Nat → List (String × JVal) → List HttpRequest → PyResult (Option JVal) × List HttpRequest
  | 0, _, log => (.error "RecursionBudget: users pagination did not finish within fuel", log)
  | fuel + 1, params, log =>
    let headers := _notion_headers token env
    let req : HttpRequest :=
      { method := "GET", url := "https://api.notion.com/v1/users",
        headers := headers, jsonBody := none, params := params }
    match http req with
    | .raise e => (.error e, log ++ [req])
    | .resp status_code _text body =>
      if status_code ≠ 200 then (.ok none, log ++ [req])
      else
        match body with
        | .error e => (.error e, log ++ [req])
        | .ok data =>
          match first_matching_user name (data.getD "results" (.arr [])).elems with
          | some uid => (.ok uid, log ++ [req])
          | none =>
            if !(data.getD "has_more" .null).truthy then (.ok none, log ++ [req])
            else
              _find_notion_user_id_loop http env name token fuel
                [("start_cursor", data.getD "next_cursor" .null)] (log ++ [req])

/-- Embeds `_find_notion_user_id_by_name` (notion_tools.py lines 16-35):
lists Notion users and returns the first matching id. -/
def _find_notion_user_id_by_name (http : Http) (env : NotionEnv) (fuel : Nat)
    (name token : String) : PyResult (Option JVal) × List HttpRequest :=
  _find_notion_user_id_loop http env name token fuel [] []

/-- Embeds `"".join(t.get("plain_text", "") for t in title_prop)`. -/
def joinPlainText (title_prop : JVal) : String :=
  String.join (title_prop.elems.map (fun t => (t.getD "plain_text" (.str "")).asStr))

/-- Embeds the status extraction
`status_prop["status"]["name"] if status_prop and status_prop.get("status") else "No Status"`;
the indexing of `"name"` raises a KeyError when the key is absent. -/
def status_name_of (status_prop : Option JVal) : PyResult JVal :=
  match status_prop with
  | none => .ok (.str "No Status")
  | some sp =>
    if sp.truthy && (sp.getD "status" .null).truthy then
      match (sp.getD "status" .null).get? "name" with
      | some nm => .ok nm
      | none => .error "KeyError: name"
    else .ok (.str "No Status")

/-- Embeds the due-date extraction of `update_notion_task`
(notion_tools.py lines 223-224). -/
def due_start_of (due_prop : Option JVal) : JVal :=
  match due_prop with
  | none => .null
  | some dp =>
    if dp.truthy && (dp.getD "date" .null).truthy
        && ((dp.getD "date" .null).getD "start" .null).truthy then
      (dp.getD "date" .null).getD "start" .null
    else .null

/-- Embeds the assignee extraction shared by `show_notion_tasks` and
`update_notion_task`: `[p.get("name") for p in people if p.get("name")]`
over `assignee_prop.get("people", []) or []`. -/
def assignees_of (page_props : JVal) : List JVal :=
  let assignee_prop := page_props.getD "Assignee" (.obj [])
  let people := pyOr (assignee_prop.getD "people" (.arr [])) (.arr [])
  (people.elems.filter (fun p => (p.getD "name" .null).truthy)).map
    (fun p => p.getD "name" .null)

/-- Embeds the per-page body of the `for page in results` loop of
`show_notion_tasks` (notion_tools.py lines 70-94). -/
def task_of (page : JVal) : PyResult JVal :=
  let properties := page.getD "properties" (.obj [])
  let title_text := joinPlainText ((properties.getD "Task name" (.obj [])).getD "title" (.arr []))
  match status_name_of (properties.get? "Status") with
  | .error e => .error e
  | .ok status_name =>
    .ok (.obj [("id", page.getD "id" .null), ("title", .str title_text),
      ("status", status_name), ("assignees", .arr (assignees_of properties))])

/-- Embeds the whole `for page in results` accumulation of
`show_notion_tasks`, propagating the first exception. -/
def tasks_of : List JVal → PyResult (List JVal)
  | [] => .ok []
  | page :: rest =>
    match task_of page with
    | .error e => .error e
    | .ok t =>
      match tasks_of rest with
      | .error e => .error e
      | .ok ts => .ok (t :: ts)

/-- Embeds `show_notion_tasks` (notion_tools.py lines 38-96). -/
def show_notion_tasks (env : NotionEnv) (http : Http) :
    PyResult JVal × List HttpRequest :=
  if envFalsy env.DATABASE_ID || envFalsy env.NOTION_TOKEN then
    (.ok (.obj [("success", .bool false),
      ("error", .str "DATABASE_ID or NOTION_TOKEN is not set.")]), [])
  else
    let db_id := env.DATABASE_ID.getD ""
    let token := env.NOTION_TOKEN.getD ""
    let url := "https://api.notion.com/v1/databases/" ++ db_id ++ "/query"
    let headers := _notion_headers token env
    let payload := JVal.obj
      [("filter", .obj [("or", .arr
        [.obj [("property", .str "Status"), ("status", .obj [("equals", .str "Not started")])],
         .obj [("property", .str "Status"), ("status", .obj [("equals", .str "In Progress")])]])]),
       ("page_size", .num 50)]
    let req : HttpRequest :=
      { method := "POST", url := url, headers := headers, jsonBody := some payload, params := [] }
    match http req with
    | .raise e => (.error e, [req])
    | .resp status_code text body =>
      if status_code ≠ 200 then
        (.ok (.obj [("success", .bool false), ("status_code", .num status_code),
          ("error", .str text)]), [req])
      else
        match body with
        | .error e => (.error e, [req])
        | .ok data =>
          match tasks_of (data.getD "results" (.arr [])).elems with
          | .error e => (.error e, [req])
          | .ok tasks =>
            (.ok (.obj [("success", .bool true), ("tasks", .arr tasks)]), [req])

/-- Embeds the payload build, POST and response handling tail of
`create_notion_task` (notion_tools.py lines 139-158). -/
def create_notion_task_send (http : Http) (db_id url : String)
    (headers : List (String × String)) (title status : String)
    (due_date : Option String) (assignees_names : List String)
    (properties : List (String × JVal)) (log : List HttpRequest) :
    PyResult JVal × List HttpRequest :=
  let payload := JVal.obj
    [("parent", .obj [("database_id", .str db_id)]), ("properties", .obj properties)]
  let req : HttpRequest :=
    { method := "POST", url := url, headers := headers, jsonBody := some payload, params := [] }
  match http req with
  | .raise e => (.error e, log ++ [req])
  | .resp status_code text body =>
    if status_code ≠ 200 then
      (.ok (.obj [("success", .bool false), ("status_code", .num status_code),
        ("error", .str text)]), log ++ [req])
    else
      match body with
      | .error e => (.error e, log ++ [req])
      | .ok data =>
        let page_id := data.getD "id" .null
        (.ok (.obj [("success", .bool true),
          ("task", .obj [("id", page_id), ("title", .str title), ("status", .str status),
            ("due_date", optStrJ due_date), ("url", .str url),
            ("assignees", .arr (assignees_names.map JVal.str))])]), log ++ [req])

/-- Embeds `create_notion_task` (notion_tools.py lines 100-158). -/
def create_notion_task (env : NotionEnv) (http : Http) (fuel : Nat)
    (title status : String) (due_date description assignee_name : Option String) :
    PyResult JVal × List HttpRequest :=
  if envFalsy env.DATABASE_ID || envFalsy env.NOTION_TOKEN then
    (.ok (.obj [("success", .bool false),
      ("error", .str "DATABASE_ID or NOTION_TOKEN is not set.")]), [])
  else
    let db_id := env.DATABASE_ID.getD ""
    let token := env.NOTION_TOKEN.getD ""
    let url := "https://api.notion.com/v1/pages"
    let headers := _notion_headers token env
    let properties : List (String × JVal) :=
      [("Task name", .obj [("title", .arr [.obj [("text", .obj [("content", .str title)])]])]),
       ("Status", .obj [("status", .obj [("name", .str status)])])]
    let properties :=
      if strTruthy due_date then
        properties ++ [("Due date", .obj [("date", .obj [("start", .str (due_date.getD ""))])])]
      else properties
    let properties :=
      if strTruthy description then
        properties ++ [("Description", .obj [("rich_text",
          .arr [.obj [("text", .obj [("content", .str (description.getD ""))])]])])]
      else properties
    if strTruthy assignee_name then
      match _find_notion_user_id_by_name http env fuel (assignee_name.getD "") token with
      | (.error e, log) => (.error e, log)
      | (.ok user_id, log) =>
        if pyTruthyO user_id then
          create_notion_task_send http db_id url headers title status due_date
            [assignee_name.getD ""]
            (properties ++ [("Assignee", .obj [("people",
              .arr [.obj [("id", user_id.getD .null)]])])]) log
        else
          (.ok (.obj [("success", .bool false),
            ("error", .str ("Could not find Notion user matching name \x27"
              ++ assignee_name.getD "" ++ "\x27."))]), log)
    else
      create_notion_task_send http db_id url headers title status due_date [] properties []

/-- Embeds the no-field check, PATCH and response handling tail of
`update_notion_task` (notion_tools.py lines 201-240). -/
def update_notion_task_send (http : Http) (url : String)
    (headers : List (String × String)) (properties : List (String × JVal))
    (log : List HttpRequest) : PyResult JVal × List HttpRequest :=
  if properties.isEmpty then
    (.ok (.obj [("success", .bool false), ("error", .str "No fields provided to update.")]), log)
  else
    let payload := JVal.obj [("properties", .obj properties)]
    let req : HttpRequest :=
      { method := "PATCH", url := url, headers := headers, jsonBody := some payload, params := [] }
    match http req with
    | .raise e => (.error e, log ++ [req])
    | .resp status_code text body =>
      if status_code ≠ 200 then
        (.ok (.obj [("success", .bool false), ("status_code", .num status_code),
          ("error", .str text)]), log ++ [req])
      else
        match body with
        | .error e => (.error e, log ++ [req])
        | .ok data =>
          let page_props := data.getD "properties" (.obj [])
          let new_title :=
            joinPlainText ((page_props.getD "Task name" (.obj [])).getD "title" (.arr []))
          match status_name_of (page_props.get? "Status") with
          | .error e => (.error e, log ++ [req])
          | .ok new_status =>
            let new_due := due_start_of (page_props.get? "Due date")
            let new_assignees := assignees_of page_props
            (.ok (.obj [("success", .bool true),
              ("task", .obj [("id", data.getD "id" .null), ("title", .str new_title),
                ("status", new_status), ("due_date", new_due),
                ("assignees", .arr new_assignees), ("url", data.getD "url" .null)])]),
              log ++ [req])

/-- Embeds `update_notion_task` (notion_tools.py lines 162-240). -/
def update_notion_task (env : NotionEnv) (http : Http) (fuel : Nat)
    (task_id : String) (title status due_date description assignee_name : Option String) :
    PyResult JVal × List HttpRequest :=
  if envFalsy env.NOTION_TOKEN then
    (.ok (.obj [("success", .bool false), ("error", .str "NOTION_TOKEN is not set.")]), [])
  else
    let token := env.NOTION_TOKEN.getD ""
    let url := "https://api.notion.com/v1/pages/" ++ task_id
    let headers := _notion_headers token env
    let properties : List (String × JVal) := []
    let properties :=
      if title.isSome then
        properties ++ [("Task name", .obj [("title",
          .arr [.obj [("text", .obj [("content", .str (title.getD ""))])]])])]
      else properties
    let properties :=
      if status.isSome then
        properties ++ [("Status", .obj [("status", .obj [("name", .str (status.getD ""))])])]
      else properties
    let properties :=
      if due_date.isSome then
        properties ++ [("Due date", .obj [("date", .obj [("start", .str (due_date.getD ""))])])]
      else properties
    let properties :=
      if description.isSome then
        properties ++ [("Description", .obj [("rich_text",
          .arr [.obj [("text", .obj [("content", .str (description.getD ""))])]])])]
      else properties
    match assignee_name with
    | some aname =>
      match _find_notion_user_id_by_name http env fuel aname token with
      | (.error e, log) => (.error e, log)
      | (.ok user_id, log) =>
        if pyTruthyO user_id then
          update_notion_task_send http url headers
            (properties ++ [("Assignee", .obj [("people",
              .arr [.obj [("id", user_id.getD .null)]])])]) log
        else
          (.ok (.obj [("success", .bool false),
            ("error", .str ("Could not find Notion user matching name \x27"
              ++ aname ++ "\x27."))]), log)
    | none => update_notion_task_send http url headers properties []

/-- Embeds `delete_notion_task` (notion_tools.py lines 244-260). -/
def delete_notion_task (env : NotionEnv) (http : Http) (task_id : String) :
    PyResult JVal × List HttpRequest :=
  if envFalsy env.NOTION_TOKEN then
    (.ok (.obj [("success", .bool false), ("error", .str "NOTION_TOKEN is not set.")]), [])
  else
    let token := env.NOTION_TOKEN.getD ""
    let url := "https://api.notion.com/v1/pages/" ++ task_id
    let headers := _notion_headers token env
    let payload := JVal.obj [("archived", .bool true)]
    let req : HttpRequest :=
      { method := "PATCH", url := url, headers := headers, jsonBody := some payload, params := [] }
    match http req with
    | .raise e => (.error e, [req])
    | .resp status_code text _body =>
      if status_code ≠ 200 then
        (.ok (.obj [("success", .bool false), ("status_code", .num status_code),
          ("error", .str text)]), [req])
      else (.ok (.obj [("success", .bool true), ("task_id", .str task_id)]), [req])

/-- Embeds the registry list `notion_tools` (notion_tools.py lines
263-268) as the tool names the decorator registers. -/
def notion_tools : List String :=
  ["show_notion_tasks", "create_notion_task", "update_notion_task", "delete_notion_task"]

end notion_tools

/-- Message roles of the langchain message classes used by the system:
SystemMessage, HumanMessage, AIMessage and ToolMessage. -/
inductive Role where
  | system : Role
  | user : Role
  | assistant : Role
  | tool : Role
deriving DecidableEq

/-- One tool request carried by an assistant message: the call id, the
tool name and the argument mapping. -/
structure ToolCall where
  id : String
  name : String
  args : List (String × JVal)

/-- One transcript entry.  `tool_calls` is the request list of an
assistant message (empty on every other role, matching the falsy result
of `getattr(msg, "tool_calls", None)`); `tool_call_id` and `tool_result`
are the back-reference and structured payload of a tool message. -/
structure Msg where
  role : Role
  content : String
  tool_calls : List ToolCall
  tool_call_id : Option String
  tool_result : Option JVal

/-- A langchain `HumanMessage(content=text)`. -/
def HumanMessage (content : String) : Msg :=
  { role := .user, content := content, tool_calls := [], tool_call_id := none,
    tool_result := none }

/-- An `AIMessage` with content and tool requests. -/
def AIMessage (content : String) (tool_calls : List ToolCall) : Msg :=
  { role := .assistant, content := content, tool_calls := tool_calls,
    tool_call_id := none, tool_result := none }

/-- A `ToolMessage` answering one tool request; the serialized result
payload is kept structurally in `tool_result`. -/
def ToolMessage (tc : ToolCall) (result : JVal) : Msg :=
  { role := .tool, content := "", tool_calls := [], tool_call_id := some tc.id,
    tool_result := some result }

namespace prompts

/-- Embeds `ASSISTANT_SYSTEM_PROMPT` (prompts.py lines 2-21). -/
def ASSISTANT_SYSTEM_PROMPT : String :=
  "\nYou are an AI assistant that communicates in a natural, friendly, human-like tone. \nYou should never sound like a rigid system or a report generator. Your responses should read \nas something a thoughtful person would say in a conversation.\n\nYour primary role is to help the user with anything they need. You may chat freely, explain concepts, \nbrainstorm ideas, or assist with tasks. When the user clearly wants to see, add, update, or remove real tasks, \nyou may use the Notion tools to perform that action.\n\nWhen you present task information, express it in a conversational and human style. Avoid rigid labels like \n“Status: …”, “Assignee: …”, “Task ID: …”, “Atanan: …”, or list-heavy robotic formatting. Instead, describe things naturally, \nfor example: “This one is still in progress”, “No one is assigned yet”, or “Baran is currently handling this task.”\n\nDo not output raw JSON unless explicitly asked. Summaries should flow naturally and feel like part of the conversation.\n\nIf something is unclear, ask a simple clarifying question naturally. \nIf a tool action fails, explain it in an approachable way, without technical noise.\n\nYour tone is friendly, intelligent, and easy to talk to — not mechanical, not overly formal, and not bullet-point rigid unless the user prefers it.\n"

end prompts

namespace agent

/-- Embeds the `AgentState` TypedDict (agent.py lines 18-19). -/
structure AgentState where
  messages : List Msg

/-- Embeds `_notion_headers` (agent.py lines 22-27). -/
def _notion_headers (token : String) (env : NotionEnv) : List (String × String) :=
  [("Authorization", "Bearer " ++ token),
   ("Notion-Version", env.NOTION_VERSION.getD "2022-06-28"),
   ("Content-Type", "application/json")]

/-- First matching user of the inner loop of `_find_notion_user_id_by_name`
(agent.py lines 42-45). -/
def first_matching_user (name : String) : List JVal → Option (Option JVal)
  | [] => none
  | user :: rest =>
    let user_name := (pyOr (user.getD "name" .null) (.str "")).asStr
    if pyInStr name.toLower user_name.toLower then some (user.get? "id")
    else first_matching_user name rest

/-- Embeds the `while True` pagination loop of
`_find_notion_user_id_by_name` (agent.py lines 37-48). -/
def _find_notion_user_id_loop (http : Http) (env : NotionEnv) (name token : String) :
    Nat → List (String × JVal) → List HttpRequest → PyResult (Option JVal) × List HttpRequest
  | 0, _, log => (.error "RecursionBudget: users pagination did not finish within fuel", log)
  | fuel + 1, params, log =>
    let headers := _notion_headers token env
    let req : HttpRequest :=
      { method := "GET", url := "https://api.notion.com/v1/users",
        headers := headers, jsonBody := none, params := params }
    match http req with
    | .raise e => (.error e, log ++ [req])
    | .resp status_code _text body =>
      if status_code ≠ 200 then (.ok none, log ++ [req])
      else
        match body with
        | .error e => (.error e, log ++ [req])
        | .ok data =>
          match first_matching_user name (data.getD "results" (.arr [])).elems with
          | some uid => (.ok uid, log ++ [req])
          | none =>
            if !(data.getD "has_more" .null).truthy then (.ok none, log ++ [req])
            else
              _find_notion_user_id_loop http env name token fuel
                [("start_cursor", data.getD "next_cursor" .null)] (log ++ [req])

/-- Embeds `_find_notion_user_id_by_name` (agent.py lines 30-49). -/
def _find_notion_user_id_by_name (http : Http) (env : NotionEnv) (fuel : Nat)
    (name token : String) : PyResult (Option JVal) × List HttpRequest :=
  _find_notion_user_id_loop http env name token fuel [] []

/-- Embeds `"".join(t.get("plain_text", "") for t in title_prop)`
(agent.py line 112). -/
def joinPlainText (title_prop : JVal) : String :=
  String.join (title_prop.elems.map (fun t => (t.getD "plain_text" (.str "")).asStr))

/-- Embeds the status extraction of agent.py lines 114-119 and 361-366. -/
def status_name_of (status_prop : Option JVal) : PyResult JVal :=
  match status_prop with
  | none => .ok (.str "No Status")
  | some sp =>
    if sp.truthy && (sp.getD "status" .null).truthy then
      match (sp.getD "status" .null).get? "name" with
      | some nm => .ok nm
      | none => .error "KeyError: name"
    else .ok (.str "No Status")

/-- Embeds the due-date extraction of `update_notion_task`
(agent.py lines 368-372). -/
def due_start_of (due_prop : Option JVal) : JVal :=
  match due_prop with
  | none => .null
  | some dp =>
    if dp.truthy && (dp.getD "date" .null).truthy
        && ((dp.getD "date" .null).getD "start" .null).truthy then
      (dp.getD "date" .null).getD "start" .null
    else .null

/-- Embeds the assignee extraction of agent.py lines 121-123 and 374-376. -/
def assignees_of (page_props : JVal) : List JVal :=
  let assignee_prop := page_props.getD "Assignee" (.obj [])
  let people := pyOr (assignee_prop.getD "people" (.arr [])) (.arr [])
  (people.elems.filter (fun p => (p.getD "name" .null).truthy)).map
    (fun p => p.getD "name" .null)

/-- Embeds the per-page loop body of `show_notion_tasks`
(agent.py lines 108-132). -/
def task_of (page : JVal) : PyResult JVal :=
  let properties := page.getD "properties" (.obj [])
  let title_text := joinPlainText ((properties.getD "Task name" (.obj [])).getD "title" (.arr []))
  match status_name_of (properties.get? "Status") with
  | .error e => .error e
  | .ok status_name =>
    .ok (.obj [("id", page.getD "id" .null), ("title", .str title_text),
      ("status", status_name), ("assignees", .arr (assignees_of properties))])

/-- Embeds the task accumulation loop of `show_notion_tasks` (agent.py
lines 106-132). -/
def tasks_of : List JVal → PyResult (List JVal)
  | [] => .ok []
  | page :: rest =>
    match task_of page with
    | .error e => .error e
    | .ok t =>
      match tasks_of rest with
      | .error e => .error e
      | .ok ts => .ok (t :: ts)

/-- Embeds the inline tool `show_notion_tasks` (agent.py lines 52-134). -/
def show_notion_tasks (env : NotionEnv) (http : Http) :
    PyResult JVal × List HttpRequest :=
  if envFalsy env.DATABASE_ID || envFalsy env.NOTION_TOKEN then
    (.ok (.obj [("success", .bool false),
      ("error", .str "DATABASE_ID or NOTION_TOKEN is not set.")]), [])
  else
    let db_id := env.DATABASE_ID.getD ""
    let token := env.NOTION_TOKEN.getD ""
    let url := "https://api.notion.com/v1/databases/" ++ db_id ++ "/query"
    let headers := _notion_headers token env
    let payload := JVal.obj
      [("filter", .obj [("or", .arr
        [.obj [("property", .str "Status"), ("status", .obj [("equals", .str "Not started")])],
         .obj [("property", .str "Status"), ("status", .obj [("equals", .str "In Progress")])]])]),
       ("page_size", .num 50)]
    let req : HttpRequest :=
      { method := "POST", url := url, headers := headers, jsonBody := some payload, params := [] }
    match http req with
    | .raise e => (.error e, [req])
    | .resp status_code text body =>
      if status_code ≠ 200 then
        (.ok (.obj [("success", .bool false), ("status_code", .num status_code),
          ("error", .str text)]), [req])
      else
        match body with
        | .error e => (.error e, [req])
        | .ok data =>
          match tasks_of (data.getD "results" (.arr [])).elems with
          | .error e => (.error e, [req])
          | .ok tasks =>
            (.ok (.obj [("success", .bool true), ("tasks", .arr tasks)]), [req])

/-- Embeds the payload build, POST and response handling tail of the
inline `create_notion_task` (agent.py lines 227-257). -/
def create_notion_task_send (http : Http) (db_id url : String)
    (headers : List (String × String)) (title status : String)
    (due_date : Option String) (assignees_names : List String)
    (properties : List (String × JVal)) (log : List HttpRequest) :
    PyResult JVal × List HttpRequest :=
  let payload := JVal.obj
    [("parent", .obj [("database_id", .str db_id)]), ("properties", .obj properties)]
  let req : HttpRequest :=
    { method := "POST", url := url, headers := headers, jsonBody := some payload, params := [] }
  match http req with
  | .raise e => (.error e, log ++ [req])
  | .resp status_code text body =>
    if status_code ≠ 200 then
      (.ok (.obj [("success", .bool false), ("status_code", .num status_code),
        ("error", .str text)]), log ++ [req])
    else
      match body with
      | .error e => (.error e, log ++ [req])
      | .ok data =>
        let page_id := data.getD "id" .null
        (.ok (.obj [("success", .bool true),
          ("task", .obj [("id", page_id), ("title", .str title), ("status", .str status),
            ("due_date", optStrJ due_date), ("url", .str url),
            ("assignees", .arr (assignees_names.map JVal.str))])]), log ++ [req])

/-- Embeds the inline tool `create_notion_task` (agent.py lines 137-257). -/
def create_notion_task (env : NotionEnv) (http : Http) (fuel : Nat)
    (title status : String) (due_date description assignee_name : Option String) :
    PyResult JVal × List HttpRequest :=
  if envFalsy env.DATABASE_ID || envFalsy env.NOTION_TOKEN then
    (.ok (.obj [("success", .bool false),
      ("error", .str "DATABASE_ID or NOTION_TOKEN is not set.")]), [])
  else
    let db_id := env.DATABASE_ID.getD ""
    let token := env.NOTION_TOKEN.getD ""
    let url := "https://api.notion.com/v1/pages"
    let headers := _notion_headers token env
    let properties : List (String × JVal) :=
      [("Task name", .obj [("title", .arr [.obj [("text", .obj [("content", .str title)])]])]),
       ("Status", .obj [("status", .obj [("name", .str status)])])]
    let properties :=
      if strTruthy due_date then
        properties ++ [("Due date", .obj [("date", .obj [("start", .str (due_date.getD ""))])])]
      else properties
    let properties :=
      if strTruthy description then
        properties ++ [("Description", .obj [("rich_text",
          .arr [.obj [("text", .obj [("content", .str (description.getD ""))])]])])]
      else properties
    if strTruthy assignee_name then
      match _find_notion_user_id_by_name http env fuel (assignee_name.getD "") token with
      | (.error e, log) => (.error e, log)
      | (.ok user_id, log) =>
        if pyTruthyO user_id then
          create_notion_task_send http db_id url headers title status due_date
            [assignee_name.getD ""]
            (properties ++ [("Assignee", .obj [("people",
              .arr [.obj [("id", user_id.getD .null)]])])]) log
        else
          (.ok (.obj [("success", .bool false),
            ("error", .str ("Could not find Notion user matching name \x27"
              ++ assignee_name.getD "" ++ "\x27."))]), log)
    else
      create_notion_task_send http db_id url headers title status due_date [] properties []

/-- Embeds the no-field check, PATCH and response handling tail of the
inline `update_notion_task` (agent.py lines 338-388). -/
def update_notion_task_send (http : Http) (url : String)
    (headers : List (String × String)) (properties : List (String × JVal))
    (log : List HttpRequest) : PyResult JVal × List HttpRequest :=
  if properties.isEmpty then
    (.ok (.obj [("success", .bool false), ("error", .str "No fields provided to update.")]), log)
  else
    let payload := JVal.obj [("properties", .obj properties)]
    let req : HttpRequest :=
      { method := "PATCH", url := url, headers := headers, jsonBody := some payload, params := [] }
    match http req with
    | .raise e => (.error e, log ++ [req])
    | .resp status_code text body =>
      if status_code ≠ 200 then
        (.ok (.obj [("success", .bool false), ("status_code", .num status_code),
          ("error", .str text)]), log ++ [req])
      else
        match body with
        | .error e => (.error e, log ++ [req])
        | .ok data =>
          let page_props := data.getD "properties" (.obj [])
          let new_title :=
            joinPlainText ((page_props.getD "Task name" (.obj [])).getD "title" (.arr []))
          match status_name_of (page_props.get? "Status") with
          | .error e => (.error e, log ++ [req])
          | .ok new_status =>
            let new_due := due_start_of (page_props.get? "Due date")
            let new_assignees := assignees_of page_props
            (.ok (.obj [("success", .bool true),
              ("task", .obj [("id", data.getD "id" .null), ("title", .str new_title),
                ("status", new_status), ("due_date", new_due),
                ("assignees", .arr new_assignees), ("url", data.getD "url" .null)])]),
              log ++ [req])

/-- Embeds the inline tool `update_notion_task` (agent.py lines 260-388).
The `assignees_names` bindings of lines 324 and 331 are dead in the
source (the returned assignees come from the response) and appear here as
unused lets. -/
def update_notion_task (env : NotionEnv) (http : Http) (fuel : Nat)
    (task_id : String) (title status due_date description assignee_name : Option String) :
    PyResult JVal × List HttpRequest :=
  if envFalsy env.NOTION_TOKEN then
    (.ok (.obj [("success", .bool false), ("error", .str "NOTION_TOKEN is not set.")]), [])
  else
    let token := env.NOTION_TOKEN.getD ""
    let url := "https://api.notion.com/v1/pages/" ++ task_id
    let headers := _notion_headers token env
    let properties : List (String × JVal) := []
    let properties :=
      if title.isSome then
        properties ++ [("Task name", .obj [("title",
          .arr [.obj [("text", .obj [("content", .str (title.getD ""))])]])])]
      else properties
    let properties :=
      if status.isSome then
        properties ++ [("Status", .obj [("status", .obj [("name", .str (status.getD ""))])])]
      else properties
    let properties :=
      if due_date.isSome then
        properties ++ [("Due date", .obj [("date", .obj [("start", .str (due_date.getD ""))])])]
      else properties
    let properties :=
      if description.isSome then
        properties ++ [("Description", .obj [("rich_text",
          .arr [.obj [("text", .obj [("content", .str (description.getD ""))])]])])]
      else properties
    let assignees_names : List String := []
    match assignee_name with
    | some aname =>
      match _find_notion_user_id_by_name http env fuel aname token with
      | (.error e, log) => (.error e, log)
      | (.ok user_id, log) =>
        if pyTruthyO user_id then
          let assignees_names := [aname]
          update_notion_task_send http url headers
            (properties ++ [("Assignee", .obj [("people",
              .arr [.obj [("id", user_id.getD .null)]])])]) log
        else
          (.ok (.obj [("success", .bool false),
            ("error", .str ("Could not find Notion user matching name \x27"
              ++ aname ++ "\x27."))]), log)
    | none => update_notion_task_send http url headers properties []

/-- Embeds the inline tool `delete_notion_task` (agent.py lines 391-430). -/
def delete_notion_task (env : NotionEnv) (http : Http) (task_id : String) :
    PyResult JVal × List HttpRequest :=
  if envFalsy env.NOTION_TOKEN then
    (.ok (.obj [("success", .bool false), ("error", .str "NOTION_TOKEN is not set.")]), [])
  else
    let token := env.NOTION_TOKEN.getD ""
    let url := "https://api.notion.com/v1/pages/" ++ task_id
    let headers := _notion_headers token env
    let payload := JVal.obj [("archived", .bool true)]
    let req : HttpRequest :=
      { method := "PATCH", url := url, headers := headers, jsonBody := some payload, params := [] }
    match http req with
    | .raise e => (.error e, [req])
    | .resp status_code text _body =>
      if status_code ≠ 200 then
        (.ok (.obj [("success", .bool false), ("status_code", .num status_code),
          ("error", .str text)]), [req])
      else (.ok (.obj [("success", .bool true), ("task_id", .str task_id)]), [req])

/-- Embeds `tools = [show_notion_tasks, create_notion_task,
update_notion_task, delete_notion_task]` (agent.py line 433): the
registry bound to the model via `bind_tools` and handed to `ToolNode`,
given by the names the `@tool` decorator registers (the function names).
The semantics of each name is the correspondingly-named function above. -/
def tools : List String :=
  ["show_notion_tasks", "create_notion_task", "update_notion_task", "delete_notion_task"]

/-- The system message built by `call_llm` (agent.py line 438). -/
def systemMessage : Msg :=
  { role := .system, content := prompts.ASSISTANT_SYSTEM_PROMPT, tool_calls := [],
    tool_call_id := none, tool_result := none }

/-- Embeds `call_llm` (agent.py lines 437-440): the node invokes the
model on the system prompt followed by the current transcript and
returns only the response, which `add_messages` then appends.  The model
client is the oracle `llm`. -/
def call_llm (llm : List Msg → Msg) (state : AgentState) : AgentState :=
  { messages := [llm (systemMessage :: state.messages)] }

/-- Embeds `should_continue` (agent.py lines 443-449): `"end"` on an
empty transcript, otherwise `"continue"` exactly when the last message
carries a truthy `tool_calls`. -/
def should_continue (state : AgentState) : String :=
  match state.messages.getLast? with
  | none => "end"
  | some last_message => if !last_message.tool_calls.isEmpty then "continue" else "end"

/-- Embeds the ToolNode (agent.py line 454): one ToolMessage per tool
request of the last message, produced by the dispatcher `invoke` (the
per-name execution of the registry, including its error results). -/
def tool_node (invoke : ToolCall → JVal) (state : AgentState) : List Msg :=
  match state.messages.getLast? with
  | none => []
  | some last_message => last_message.tool_calls.map (fun tc => ToolMessage tc (invoke tc))

/-- The control states of the compiled graph of `build_graph` (agent.py
lines 452-466): about to run the `agent` node, about to run the `tools`
node, or finished (`END`). -/
inductive LoopPhase where
  | AWAIT_MODEL : LoopPhase
  | DISPATCH_TOOLS : LoopPhase
  | DONE : LoopPhase
deriving DecidableEq

/-- A configuration of the compiled graph: control state plus transcript. -/
structure LoopState where
  phase : LoopPhase
  messages : List Msg

/-- One step of the compiled graph of `build_graph` (agent.py lines
452-466): the `agent` node runs `call_llm`, merges via `add_messages`,
and follows the conditional edge given by `should_continue`
(`"continue"` to `tools`, `"end"` to END); the `tools` node appends the
ToolMessages and follows the unconditional edge back to `agent`; END is
absorbing. -/
def loopStep (llm : List Msg → Msg) (invoke : ToolCall → JVal) :
    LoopState → LoopState
  | { phase := .AWAIT_MODEL, messages := msgs } =>
    let merged := msgs ++ (call_llm llm { messages := msgs }).messages
    if should_continue { messages := merged } = "continue" then
      { phase := .DISPATCH_TOOLS, messages := merged }
    else
      { phase := .DONE, messages := merged }
  | { phase := .DISPATCH_TOOLS, messages := msgs } =>
    { phase := .AWAIT_MODEL, messages := msgs ++ tool_node invoke { messages := msgs } }
  | { phase := .DONE, messages := msgs } => { phase := .DONE, messages := msgs }

/-- `n` steps of the compiled graph from the entry point `agent`
(`set_entry_point("agent")`, agent.py line 458) on a given transcript. -/
def run (llm : List Msg → Msg) (invoke : ToolCall → JVal) (msgs : List Msg) :
    Nat → LoopState
  | 0 => { phase := .AWAIT_MODEL, messages := msgs }
  | n + 1 => loopStep llm invoke (run llm invoke msgs n)

end agent

/-- The environment variables read by the GitHub tool module: the token
checked by the client factory and the default owner used to resolve
repository names. -/
structure GhEnv where
  GITHUB_TOKEN : Option String
  GITHUB_DEFAULT_OWNER : Option String

/-- The authenticated user as observed by `github_whoami`: the `login`
and `id` attributes whose first access performs the remote fetch. -/
structure GhUser where
  login : String
  id : Int

/-- A repository as observed by the tools: the attributes the payload
builders read (`full_name`, `private`, `description`, `html_url`,
`stargazers_count`).  The `private` attribute is named `is_private`
because `private` is reserved in Lean. -/
structure GhRepo where
  full_name : String
  is_private : Bool
  description : Option String
  html_url : String
  stargazers_count : Int

/-- A git commit author: `date.isoformat()` is modelled as the delivered
string, `name` may be absent. -/
structure GhGitAuthor where
  date_iso : String
  name : Option String

/-- The `commit` attribute of a listed commit. -/
structure GhGitCommit where
  author : Option GhGitAuthor
  message : Option String

/-- One entry of `r.get_commits(...)`. -/
structure GhCommit where
  sha : String
  commit : Option GhGitCommit

/-- One entry of `r.get_branches()` / the result of `r.get_branch(...)`:
its name and the `commit.sha` read by `github_create_branch`. -/
structure GhBranch where
  name : String
  commit_sha : String

/-- The result of `r.get_contents(path, ref=branch)`: the `path` and
`sha` attributes the file tools pass on. -/
structure GhContent where
  path : String
  sha : String

/-- An issue as observed by the tools. -/
structure GhIssue where
  number : Int
  title : String
  state : String
  html_url : String

/-- A pull request as observed by the tools. -/
structure GhPull where
  number : Int
  title : String
  state : String
  html_url : String
  head_ref : String
  base_ref : String

/-- The `PullRequestMergeStatus` returned by `pr.merge(...)`. -/
structure GhMerge where
  merged : Bool
  message : String

/-- One entry of `g.search_issues(...)`: `repository` is the enclosing
repository full name when `i.repository` is set. -/
structure GhSearchIssue where
  title : String
  html_url : String
  repository : Option String
  number : Int

/-- The `core` rate-limit record: `reset.isoformat()` modelled as the
delivered string when `reset` is set. -/
structure GhRate where
  remaining : Int
  limit : Int
  reset_iso : Option String

/-- The PyGithub oracle: one field per remote operation the tools
perform, each either raising (any `Exception`) or delivering its data.
Operations on a repository are keyed by its resolved full name.  Lazy
attribute reads are folded into the oracle call that delivers the
object. -/
structure GhOracle where
  get_user : Except String GhUser
  get_user_repos : Except String (List GhRepo)
  create_repo : String → String → Bool → Bool → Except String GhRepo
  get_repo : String → Except String GhRepo
  repo_delete : String → Except String Unit
  get_commits : String → String → Except String (List GhCommit)
  get_branches : String → Except String (List GhBranch)
  get_branch : String → String → Except String GhBranch
  create_git_ref : String → String → String → Except String Unit
  delete_git_ref : String → String → Except String Unit
  create_file : String → String → String → String → String → Except String String
  get_contents : String → String → String → Except String GhContent
  update_file : String → String → String → String → String → String → Except String String
  delete_file : String → String → String → String → String → Except String String
  get_issues : String → String → Except String (List GhIssue)
  create_issue : String → String → String → Except String GhIssue
  get_issue : String → Int → Except String GhIssue
  issue_edit_closed : String → Int → Except String Unit
  get_pulls : String → String → Except String (List GhPull)
  create_pull : String → String → String → String → String → Except String GhPull
  get_pull : String → Int → Except String GhPull
  pull_merge : String → Int → Option String → Except String GhMerge
  add_to_collaborators : String → String → String → Except String Unit
  remove_from_collaborators : String → String → Except String Unit
  search_repositories : String → Except String (List GhRepo)
  search_issues : String → Except String (List GhSearchIssue)
  get_rate_limit : Except String GhRate

namespace github_tools

/-- Embeds `_gh` (github_tools.py lines 10-14): raises when
`GITHUB_TOKEN` is unset or empty, otherwise yields a client handle. -/
def _gh (env : GhEnv) : Except String Unit :=
  if envFalsy env.GITHUB_TOKEN then .error "GITHUB_TOKEN is not set."
  else .ok ()

/-- Embeds `_owner_default` (github_tools.py lines 17-18). -/
def _owner_default (env : GhEnv) : Option String :=
  env.GITHUB_DEFAULT_OWNER

/-- Embeds `_get_repo_full_name` (github_tools.py lines 21-29): keep an
`owner/name` argument, otherwise prefix the explicit or default owner,
otherwise raise. -/
def _get_repo_full_name (env : GhEnv) (owner : Option String) (repo : String) :
    Except String String :=
  if pyInStr "/" repo then .ok repo
  else if strTruthy owner then .ok (owner.getD "" ++ "/" ++ repo)
  else if strTruthy (_owner_default env) then .ok ((_owner_default env).getD "" ++ "/" ++ repo)
  else .error "owner is required if repo is not in \x27owner/name\x27 form."

/-- Embeds `_ok` (github_tools.py lines 32-33). -/
def _ok (payload : List (String × JVal)) : JVal :=
  .obj (("success", .bool true) :: payload)

/-- Embeds `_err` (github_tools.py lines 36-37). -/
def _err (msg : String) : JVal :=
  .obj [("success", .bool false), ("error", .str msg)]

/-- The `try ... except Exception as e: return _err(str(e))` pattern that
wraps the whole body of every GitHub tool: the body runs in the
exception monad, and any raised exception is converted to `_err`. -/
def ghWrap : Except String (List (String × JVal)) → JVal
  | .ok payload => _ok payload
  | .error e => _err e

/-- Embeds `max(1, min(limit, cap))`, the truncation bound of the
listing tools. -/
def ghLimit (limit cap : Int) : Nat :=
  (max 1 (min limit cap)).toNat

/-- Embeds `message.splitlines()[0]` under the non-empty guard of
`github_list_commits`. -/
def firstLine (m : String) : String :=
  (m.splitOn "\n").headD ""

/-- Embeds `github_whoami` (github_tools.py lines 40-48). -/
def github_whoami (env : GhEnv) (oracle : GhOracle) : JVal :=
  ghWrap (do
    let _ ← _gh env
    let me ← oracle.get_user
    pure [("login", JVal.str me.login), ("id", JVal.num me.id)])

/-- Embeds `github_list_repos` (github_tools.py lines 51-79): filter by
visibility, stop at the truncation bound. -/
def github_list_repos (env : GhEnv) (oracle : GhOracle) (visibility : String)
    (limit : Int) : JVal :=
  ghWrap (do
    let _ ← _gh env
    let rs ← oracle.get_user_repos
    let repos := (rs.filter (fun r =>
      !(visibility == "public" && r.is_private)
        && !(visibility == "private" && !r.is_private))).take (ghLimit limit 200)
    pure [("repos", JVal.arr (repos.map (fun r =>
      JVal.obj [("full_name", .str r.full_name), ("private", .bool r.is_private),
        ("description", optStrJ r.description)])))])

/-- Embeds `github_create_repo` (github_tools.py lines 82-112). -/
def github_create_repo (env : GhEnv) (oracle : GhOracle) (name description : String)
    (is_private auto_init : Bool) : JVal :=
  ghWrap (do
    let _ ← _gh env
    let repo ← oracle.create_repo name description is_private auto_init
    pure [("repo", JVal.obj [("full_name", .str repo.full_name),
      ("private", .bool repo.is_private), ("url", .str repo.html_url)])])

/-- Embeds `github_delete_repo` (github_tools.py lines 115-128). -/
def github_delete_repo (env : GhEnv) (oracle : GhOracle) (owner : Option String)
    (repo : String) : JVal :=
  ghWrap (do
    let _ ← _gh env
    let full_name ← _get_repo_full_name env owner repo
    let _r ← oracle.get_repo full_name
    let _ ← oracle.repo_delete full_name
    pure [("full_name", JVal.str full_name)])

/-- Embeds the per-commit payload of `github_list_commits`
(github_tools.py lines 145-162), with its `c.commit` / `c.commit.author`
/ `c.commit.message` truthiness guards. -/
def commit_entry (c : GhCommit) : JVal :=
  JVal.obj [("sha", .str c.sha),
    ("date", match c.commit with
      | some gc => match gc.author with
        | some a => .str a.date_iso
        | none => .null
      | none => .null),
    ("message", match c.commit with
      | some gc => match gc.message with
        | some m => if !m.isEmpty then .str (firstLine m) else .str ""
        | none => .str ""
      | none => .str ""),
    ("author", match c.commit with
      | some gc => match gc.author with
        | some a => optStrJ a.name
        | none => .null
      | none => .null)]

/-- Embeds `github_list_commits` (github_tools.py lines 131-167). -/
def github_list_commits (env : GhEnv) (oracle : GhOracle) (owner : Option String)
    (repo branch : String) (limit : Int) : JVal :=
  ghWrap (do
    let _ ← _gh env
    let full_name ← _get_repo_full_name env owner repo
    let _r ← oracle.get_repo full_name
    let cs ← oracle.get_commits full_name branch
    pure [("repo", .str full_name), ("branch", .str branch),
      ("commits", JVal.arr ((cs.take (ghLimit limit 100)).map commit_entry))])

/-- Embeds `github_list_branches` (github_tools.py lines 170-184). -/
def github_list_branches (env : GhEnv) (oracle : GhOracle) (owner : Option String)
    (repo : String) (limit : Int) : JVal :=
  ghWrap (do
    let _ ← _gh env
    let full_name ← _get_repo_full_name env owner repo
    let _r ← oracle.get_repo full_name
    let bs ← oracle.get_branches full_name
    pure [("repo", .str full_name),
      ("branches", JVal.arr ((bs.take (ghLimit limit 300)).map (fun b =>
        JVal.obj [("name", .str b.name)])))])

/-- Embeds `github_create_branch` (github_tools.py lines 187-211). -/
def github_create_branch (env : GhEnv) (oracle : GhOracle) (owner : Option String)
    (repo new_branch source_branch : String) : JVal :=
  ghWrap (do
    let _ ← _gh env
    let full_name ← _get_repo_full_name env owner repo
    let _r ← oracle.get_repo full_name
    let source ← oracle.get_branch full_name source_branch
    let sha := source.commit_sha
    let _ ← oracle.create_git_ref full_name ("refs/heads/" ++ new_branch) sha
    pure [("repo", .str full_name), ("new_branch", .str new_branch),
      ("source_branch", .str source_branch), ("sha", .str sha)])

/-- Embeds `github_delete_branch` (github_tools.py lines 214-224). -/
def github_delete_branch (env : GhEnv) (oracle : GhOracle) (owner : Option String)
    (repo branch : String) : JVal :=
  ghWrap (do
    let _ ← _gh env
    let full_name ← _get_repo_full_name env owner repo
    let _r ← oracle.get_repo full_name
    let _ ← oracle.delete_git_ref full_name ("heads/" ++ branch)
    pure [("repo", .str full_name), ("branch", .str branch)])

/-- Embeds `github_create_file` (github_tools.py lines 227-251). -/
def github_create_file (env : GhEnv) (oracle : GhOracle) (owner : Option String)
    (repo path message content branch : String) : JVal :=
  ghWrap (do
    let _ ← _gh env
    let full_name ← _get_repo_full_name env owner repo
    let _r ← oracle.get_repo full_name
    let commit_sha ← oracle.create_file full_name path message content branch
    pure [("repo", .str full_name), ("path", .str path), ("branch", .str branch),
      ("commit_sha", .str commit_sha)])

/-- Embeds `github_update_file` (github_tools.py lines 254-279): fetch
the file for its `path` and `sha`, then update. -/
def github_update_file (env : GhEnv) (oracle : GhOracle) (owner : Option String)
    (repo path message content branch : String) : JVal :=
  ghWrap (do
    let _ ← _gh env
    let full_name ← _get_repo_full_name env owner repo
    let _r ← oracle.get_repo full_name
    let f ← oracle.get_contents full_name path branch
    let commit_sha ← oracle.update_file full_name f.path message content f.sha branch
    pure [("repo", .str full_name), ("path", .str path), ("branch", .str branch),
      ("commit_sha", .str commit_sha)])

/-- Embeds `github_delete_file` (github_tools.py lines 282-306). -/
def github_delete_file (env : GhEnv) (oracle : GhOracle) (owner : Option String)
    (repo path message branch : String) : JVal :=
  ghWrap (do
    let _ ← _gh env
    let full_name ← _get_repo_full_name env owner repo
    let _r ← oracle.get_repo full_name
    let f ← oracle.get_contents full_name path branch
    let commit_sha ← oracle.delete_file full_name f.path message f.sha branch
    pure [("repo", .str full_name), ("path", .str path), ("branch", .str branch),
      ("commit_sha", .str commit_sha)])

/-- Embeds `github_list_issues` (github_tools.py lines 309-335). -/
def github_list_issues (env : GhEnv) (oracle : GhOracle) (owner : Option String)
    (repo state : String) (limit : Int) : JVal :=
  ghWrap (do
    let _ ← _gh env
    let full_name ← _get_repo_full_name env owner repo
    let _r ← oracle.get_repo full_name
    let issues ← oracle.get_issues full_name state
    pure [("repo", .str full_name),
      ("issues", JVal.arr ((issues.take (ghLimit limit 200)).map (fun i =>
        JVal.obj [("number", .num i.number), ("title", .str i.title),
          ("state", .str i.state), ("url", .str i.html_url)])))])

/-- Embeds `github_create_issue` (github_tools.py lines 338-359). -/
def github_create_issue (env : GhEnv) (oracle : GhOracle) (owner : Option String)
    (repo title body : String) : JVal :=
  ghWrap (do
    let _ ← _gh env
    let full_name ← _get_repo_full_name env owner repo
    let _r ← oracle.get_repo full_name
    let issue ← oracle.create_issue full_name title body
    pure [("repo", .str full_name),
      ("issue", JVal.obj [("number", .num issue.number), ("title", .str issue.title),
        ("url", .str issue.html_url)])])

/-- Embeds `github_close_issue` (github_tools.py lines 362-373): fetch
the issue, then edit its state to closed. -/
def github_close_issue (env : GhEnv) (oracle : GhOracle) (owner : Option String)
    (repo : String) (number : Int) : JVal :=
  ghWrap (do
    let _ ← _gh env
    let full_name ← _get_repo_full_name env owner repo
    let _r ← oracle.get_repo full_name
    let _issue ← oracle.get_issue full_name number
    let _ ← oracle.issue_edit_closed full_name number
    pure [("repo", .str full_name), ("number", .num number)])

/-- Embeds `github_list_prs` (github_tools.py lines 376-404). -/
def github_list_prs (env : GhEnv) (oracle : GhOracle) (owner : Option String)
    (repo state : String) (limit : Int) : JVal :=
  ghWrap (do
    let _ ← _gh env
    let full_name ← _get_repo_full_name env owner repo
    let _r ← oracle.get_repo full_name
    let prs ← oracle.get_pulls full_name state
    pure [("repo", .str full_name),
      ("prs", JVal.arr ((prs.take (ghLimit limit 200)).map (fun pr =>
        JVal.obj [("number", .num pr.number), ("title", .str pr.title),
          ("state", .str pr.state), ("url", .str pr.html_url),
          ("head", .str pr.head_ref), ("base", .str pr.base_ref)])))])

/-- Embeds `github_create_pr` (github_tools.py lines 407-429). -/
def github_create_pr (env : GhEnv) (oracle : GhOracle) (owner : Option String)
    (repo title body head base : String) : JVal :=
  ghWrap (do
    let _ ← _gh env
    let full_name ← _get_repo_full_name env owner repo
    let _r ← oracle.get_repo full_name
    let pr ← oracle.create_pull full_name title body head base
    pure [("repo", .str full_name),
      ("pr", JVal.obj [("number", .num pr.number), ("title", .str pr.title),
        ("url", .str pr.html_url)])])

/-- Embeds `github_merge_pr` (github_tools.py lines 432-452): fetch the
pull request, then merge with `commit_message or None`. -/
def github_merge_pr (env : GhEnv) (oracle : GhOracle) (owner : Option String)
    (repo : String) (number : Int) (commit_message : String) : JVal :=
  ghWrap (do
    let _ ← _gh env
    let full_name ← _get_repo_full_name env owner repo
    let _r ← oracle.get_repo full_name
    let _pr ← oracle.get_pull full_name number
    let res ← oracle.pull_merge full_name number
      (if commit_message.isEmpty then none else some commit_message)
    pure [("repo", .str full_name), ("number", .num number),
      ("merged", .bool res.merged), ("message", .str res.message)])

/-- Embeds `github_add_collaborator` (github_tools.py lines 455-470). -/
def github_add_collaborator (env : GhEnv) (oracle : GhOracle) (owner : Option String)
    (repo username permission : String) : JVal :=
  ghWrap (do
    let _ ← _gh env
    let full_name ← _get_repo_full_name env owner repo
    let _r ← oracle.get_repo full_name
    let _ ← oracle.add_to_collaborators full_name username permission
    pure [("repo", .str full_name), ("username", .str username),
      ("permission", .str permission)])

/-- Embeds `github_remove_collaborator` (github_tools.py lines 473-483). -/
def github_remove_collaborator (env : GhEnv) (oracle : GhOracle) (owner : Option String)
    (repo username : String) : JVal :=
  ghWrap (do
    let _ ← _gh env
    let full_name ← _get_repo_full_name env owner repo
    let _r ← oracle.get_repo full_name
    let _ ← oracle.remove_from_collaborators full_name username
    pure [("repo", .str full_name), ("username", .str username)])

/-- Embeds `github_search_repositories` (github_tools.py lines 486-504). -/
def github_search_repositories (env : GhEnv) (oracle : GhOracle) (query : String)
    (limit : Int) : JVal :=
  ghWrap (do
    let _ ← _gh env
    let rs ← oracle.search_repositories query
    pure [("query", .str query),
      ("repos", JVal.arr ((rs.take (ghLimit limit 50)).map (fun r =>
        JVal.obj [("full_name", .str r.full_name), ("stars", .num r.stargazers_count),
          ("url", .str r.html_url)])))])

/-- Embeds `github_search_issues` (github_tools.py lines 507-527): the
`repo` field is `i.repository.full_name if i.repository else None`. -/
def github_search_issues (env : GhEnv) (oracle : GhOracle) (query : String)
    (limit : Int) : JVal :=
  ghWrap (do
    let _ ← _gh env
    let items ← oracle.search_issues query
    pure [("query", .str query),
      ("items", JVal.arr ((items.take (ghLimit limit 50)).map (fun i =>
        JVal.obj [("title", .str i.title), ("url", .str i.html_url),
          ("repo", optStrJ i.repository), ("number", .num i.number)])))])

/-- Embeds `github_rate_limit` (github_tools.py lines 530-547). -/
def github_rate_limit (env : GhEnv) (oracle : GhOracle) : JVal :=
  ghWrap (do
    let _ ← _gh env
    let rate ← oracle.get_rate_limit
    pure [("core", JVal.obj [("remaining", .num rate.remaining),
      ("limit", .num rate.limit), ("reset", optStrJ rate.reset_iso)])])

/-- Embeds the registry list `github_tools` (github_tools.py lines
550-573) as the tool names the decorator registers. -/
def github_tools : List String :=
  ["github_whoami", "github_list_repos", "github_create_repo", "github_delete_repo",
   "github_list_commits", "github_list_branches", "github_create_branch",
   "github_delete_branch", "github_create_file", "github_update_file",
   "github_delete_file", "github_list_issues", "github_create_issue",
   "github_close_issue", "github_list_prs", "github_create_pr", "github_merge_pr",
   "github_add_collaborator", "github_remove_collaborator",
   "github_search_repositories", "github_search_issues", "github_rate_limit"]

end github_tools

/-- A result dict carrying a Boolean success flag, as every Tool
Invocation Result must. -/
def success_flagged (v : JVal) : Prop :=
  v.get? "success" = some (.bool true) ∨ v.get? "success" = some (.bool false)


namespace deps

/-- The process state of deps.py: the `SESSIONS` dict mapping a session
id to a reference to its state dict, and the heap of state dicts.  Python
dicts are mutable heap objects, so `SESSIONS` holds references; the heap
maps each reference to the current `messages` list of that state dict. -/
structure Store where
  sessions : String → Option Nat
  heap : List (List Msg)

/-- The `messages` list held by the state dict at reference `r`. -/
def heapAt (st : Store) (r : Nat) : List Msg :=
  st.heap.getD r []

/-- Embeds `get_state` (deps.py lines 12-13):
`SESSIONS.get(session_id, {"messages": []})`.  A stored session yields
the stored reference unchanged; an unseen one yields a freshly allocated
dict with an empty message list, which is NOT entered into `SESSIONS`.
The function is total: it never fails. -/
def get_state (st : Store) (session_id : String) : Nat × Store :=
  match st.sessions session_id with
  | some r => (r, st)
  | none => (st.heap.length, { st with heap := st.heap ++ [[]] })

/-- Embeds `set_state` (deps.py lines 16-17):
`SESSIONS[session_id] = state`, last write wins. -/
def set_state (st : Store) (session_id : String) (r : Nat) : Store :=
  { st with sessions := fun s => if s = session_id then some r else st.sessions s }

/-- Embeds `apply_user_message` (deps.py lines 20-22):
`state["messages"] = list(state["messages"]) + [HumanMessage(content=user_message)]`
assigns a fresh list into the SAME dict object `state` and returns that
object, so the heap cell behind the reference is updated in place. -/
def apply_user_message (st : Store) (r : Nat) (user_message : String) : Nat × Store :=
  (r, { st with heap := st.heap.set r (heapAt st r ++ [HumanMessage user_message]) })

/-- The transcript currently persisted in `SESSIONS` for a session id:
the messages of the state dict its entry points to, if any. -/
def storedMessages (st : Store) (session_id : String) : Option (List Msg) :=
  (st.sessions session_id).map (heapAt st)

end deps

/-- A transport oracle on which every HTTP request raises a connection
error, modelling an unreachable network. -/
def raiseAll : Http :=
  fun _ => .raise "ConnectionError: failed to establish a new connection"

/-- A Notion environment with both credentials configured. -/
def envOk : NotionEnv :=
  { DATABASE_ID := some "db1", NOTION_TOKEN := some "tok1", NOTION_VERSION := none }

/-- A Notion environment with no credentials configured. -/
def envNone : NotionEnv :=
  { DATABASE_ID := none, NOTION_TOKEN := none, NOTION_VERSION := none }

/-- A model oracle that always answers with a plain reply and no tool
requests. -/
def llmPlain : List Msg → Msg :=
  fun _ => AIMessage "Hi there!" []

/-- A model oracle that requests a tool call on every invocation. -/
def llmToolLoop : List Msg → Msg :=
  fun _ => AIMessage "" [{ id := "call_1", name := "show_notion_tasks", args := [] }]

/-- A dispatcher answering every tool request with a success result. -/
def invokeOk : ToolCall → JVal :=
  fun _ => .obj [("success", .bool true), ("tasks", .arr [])]

/-- A dispatcher answering every tool request with a failure result,
like the `github_create_repo` failure of the specification scenario. -/
def invokeFail : ToolCall → JVal :=
  fun _ => .obj [("success", .bool false), ("error", .str "name already exists on this account")]

/-- A transport oracle answering every request with a 404 and a plain
text body. -/
def resp404 : Http :=
  fun _ => .resp 404 "not found" (.error "Expecting value: line 1 column 1 (char 0)")

/-- A transport oracle answering every request with status 200 but a
body that is not JSON, so `.json()` raises. -/
def resp200Bad : Http :=
  fun _ => .resp 200 "<html>" (.error "JSONDecodeError: Expecting value")

/-- A GitHub environment with no variables configured. -/
def ghEnvNone : GhEnv :=
  { GITHUB_TOKEN := none, GITHUB_DEFAULT_OWNER := none }

/-- A PyGithub oracle on which every remote operation raises. -/
def ghOracleDown : GhOracle :=
  { get_user := .error "boom"
    get_user_repos := .error "boom"
    create_repo := fun _ _ _ _ => .error "boom"
    get_repo := fun _ => .error "boom"
    repo_delete := fun _ => .error "boom"
    get_commits := fun _ _ => .error "boom"
    get_branches := fun _ => .error "boom"
    get_branch := fun _ _ => .error "boom"
    create_git_ref := fun _ _ _ => .error "boom"
    delete_git_ref := fun _ _ => .error "boom"
    create_file := fun _ _ _ _ _ => .error "boom"
    get_contents := fun _ _ _ => .error "boom"
    update_file := fun _ _ _ _ _ _ => .error "boom"
    delete_file := fun _ _ _ _ _ => .error "boom"
    get_issues := fun _ _ => .error "boom"
    create_issue := fun _ _ _ => .error "boom"
    get_issue := fun _ _ => .error "boom"
    issue_edit_closed := fun _ _ => .error "boom"
    get_pulls := fun _ _ => .error "boom"
    create_pull := fun _ _ _ _ _ => .error "boom"
    get_pull := fun _ _ => .error "boom"
    pull_merge := fun _ _ _ => .error "boom"
    add_to_collaborators := fun _ _ _ => .error "boom"
    remove_from_collaborators := fun _ _ => .error "boom"
    search_repositories := fun _ => .error "boom"
    search_issues := fun _ => .error "boom"
    get_rate_limit := .error "boom" }

/-- An assistant message carrying one pending `github_create_repo`
request, as in the dispatch-failure scenario. -/
def requestMsg : Msg :=
  AIMessage "" [⟨"call_9", "github_create_repo", [("name", .str "x")]⟩]

/-- A transcript whose last message is `requestMsg`. -/
def dispatchMsgs : List Msg :=
  [HumanMessage "make repo x", requestMsg]

/-- A store holding one previously completed session `"s1"` whose
transcript is a single user message. -/
def storedStore : deps.Store :=
  { sessions := fun s => if s = "s1" then some 0 else none,
    heap := [[HumanMessage "hello"]] }

theorem getLast?_append_singleton {α : Type _} (l : List α) (a : α) :
    (l ++ [a]).getLast? = some a := by
  rw [List.getLast?_append_cons]; rfl

theorem getD_append_singleton {α : Type _} (l : List α) (x d : α) :
    (l ++ [x]).getD l.length d = x := by
  induction l with
  | nil => rfl
  | cons a t ih => simp [ih]

/-- One step of the graph from the `agent` node: the model response is
appended and the phase is chosen by the emptiness of its tool requests. -/
theorem loopStep_await (llm : List Msg → Msg) (invoke : ToolCall → JVal) (msgs : List Msg) :
    agent.loopStep llm invoke { phase := .AWAIT_MODEL, messages := msgs }
      = { phase := if (llm (agent.systemMessage :: msgs)).tool_calls.isEmpty
            then agent.LoopPhase.DONE else agent.LoopPhase.DISPATCH_TOOLS,
          messages := msgs ++ [llm (agent.systemMessage :: msgs)] } := by
  have h2 : agent.should_continue { messages := msgs ++ [llm (agent.systemMessage :: msgs)] }
      = if !(llm (agent.systemMessage :: msgs)).tool_calls.isEmpty then "continue" else "end" := by
    unfold agent.should_continue
    rw [getLast?_append_singleton]
  simp only [agent.loopStep, agent.call_llm, h2]
  cases hE : (llm (agent.systemMessage :: msgs)).tool_calls.isEmpty with
  | true => simp
  | false => simp

/-- Every message the ToolNode emits has the tool role. -/
theorem tool_node_roles (invoke : ToolCall → JVal) (s : agent.AgentState) :
    ∀ m ∈ agent.tool_node invoke s, m.role = .tool := by
  intro m hm
  unfold agent.tool_node at hm
  cases h : s.messages.getLast? with
  | none => rw [h] at hm; simp at hm
  | some last =>
    rw [h] at hm
    rcases List.mem_map.mp hm with ⟨tc, _, rfl⟩
    rfl

/-- C1: the specification requires that `apply_user_message` not change the
Session Store by itself — the persisted transcript must stay the pre-turn
transcript until `set_state`, so a model-call failure leaves no partial
write-back.  The code violates this for every previously stored session:
`get_state` hands back the stored state dict by reference and
`apply_user_message` assigns into that same dict, so the user message is
already persisted in `SESSIONS` before `set_state` runs.  At the failing
input (stored session `"s1"` with a one-message transcript, new user turn
`"hi"`), the transcript stored in `SESSIONS` grows from one message to
two with no `set_state` call. -/
theorem C1_user_turn_mutates_store_before_set_state :
    deps.storedMessages storedStore "s1" = some [HumanMessage "hello"]
    ∧ deps.storedMessages
        (deps.apply_user_message (deps.get_state storedStore "s1").2
          (deps.get_state storedStore "s1").1 "hi").2 "s1"
      = some [HumanMessage "hello", HumanMessage "hi"] :=
  ⟨rfl, rfl⟩

/-- C2 counterexample: `github_create_repo` is not in the tool list bound
to the model in agent.py, so it is not resolvable by the registry the
loop uses — the claim that the bound tool set includes the GitHub actions
is false. -/
theorem C2_counterexample_github_create_repo_not_bound :
    "github_create_repo" ∉ agent.tools := by decide

/-- C2 (amended): the tool registry the agent loop uses consists of
exactly the four Notion task actions; the GitHub actions, including
`github_create_repo`, are defined in the `github_tools` registry list of
github_tools.py but are never bound to the model, so a tool request
naming `github_create_repo` is not resolvable by the loop's registry. -/
theorem C2_registry_is_notion_only :
    agent.tools
        = ["show_notion_tasks", "create_notion_task", "update_notion_task", "delete_notion_task"]
    ∧ "github_create_repo" ∈ github_tools.github_tools
    ∧ "github_create_repo" ∉ agent.tools :=
  ⟨rfl, by decide, by decide⟩

/-- C8: `get_state` on an unseen session identifier returns a state whose
message list is empty (and, being total, it never fails); on a stored
identifier it returns the stored state with the store untouched; and two
consecutive `get_state` calls without an intervening `set_state` return
equal transcripts. -/
theorem C8_get_state_fresh_stored_idempotent (st : deps.Store) (sid : String) :
    (st.sessions sid = none →
      deps.heapAt (deps.get_state st sid).2 (deps.get_state st sid).1 = [])
    ∧ (∀ r, st.sessions sid = some r → deps.get_state st sid = (r, st))
    ∧ deps.heapAt (deps.get_state st sid).2 (deps.get_state st sid).1
        = deps.heapAt (deps.get_state (deps.get_state st sid).2 sid).2
            (deps.get_state (deps.get_state st sid).2 sid).1 := by
  refine ⟨?_, ?_, ?_⟩
  · intro h
    simp [deps.get_state, h, deps.heapAt, getD_append_singleton]
  · intro r h
    simp [deps.get_state, h]
  · cases h : st.sessions sid with
    | some r => simp [deps.get_state, h]
    | none =>
      simp only [deps.get_state, h, deps.heapAt]
      rw [getD_append_singleton, getD_append_singleton]

/-- C8 witness: on the concrete store holding only session `"s1"`, the
stored branch, the fresh branch and the idempotence equation of
`C8_get_state_fresh_stored_idempotent` instantiate as stated. -/
theorem C8_witness :
    deps.get_state storedStore "s1" = (0, storedStore)
    ∧ deps.heapAt (deps.get_state storedStore "s2").2 (deps.get_state storedStore "s2").1 = []
    ∧ deps.heapAt (deps.get_state storedStore "s1").2 (deps.get_state storedStore "s1").1
        = deps.heapAt (deps.get_state (deps.get_state storedStore "s1").2 "s1").2
            (deps.get_state (deps.get_state storedStore "s1").2 "s1").1 :=
  ⟨(C8_get_state_fresh_stored_idempotent storedStore "s1").2.1 0 rfl,
   (C8_get_state_fresh_stored_idempotent storedStore "s2").1 rfl,
   (C8_get_state_fresh_stored_idempotent storedStore "s1").2.2⟩

theorem headers_eq : agent._notion_headers = notion_tools._notion_headers := rfl

theorem first_matching_user_eq :
    agent.first_matching_user = notion_tools.first_matching_user := by
  funext name l
  induction l with
  | nil => rfl
  | cons u rest ih =>
    unfold agent.first_matching_user notion_tools.first_matching_user
    rw [ih]

theorem find_loop_eq :
    agent._find_notion_user_id_loop = notion_tools._find_notion_user_id_loop := by
  funext http env name token fuel params log
  induction fuel generalizing params log with
  | zero => rfl
  | succ k ih =>
    unfold agent._find_notion_user_id_loop notion_tools._find_notion_user_id_loop
    simp only [first_matching_user_eq, ih]
    with_unfolding_all rfl

theorem find_eq :
    agent._find_notion_user_id_by_name = notion_tools._find_notion_user_id_by_name := by
  unfold agent._find_notion_user_id_by_name notion_tools._find_notion_user_id_by_name
  rw [find_loop_eq]

theorem task_of_eq : agent.task_of = notion_tools.task_of := by
  with_unfolding_all rfl

theorem tasks_of_eq : agent.tasks_of = notion_tools.tasks_of := by
  funext l
  induction l with
  | nil => rfl
  | cons p rest ih =>
    unfold agent.tasks_of notion_tools.tasks_of
    simp only [task_of_eq, ih]

theorem show_notion_tasks_eq (env : NotionEnv) (http : Http) :
    agent.show_notion_tasks env http = notion_tools.show_notion_tasks env http := by
  unfold agent.show_notion_tasks notion_tools.show_notion_tasks
  simp only [tasks_of_eq]
  with_unfolding_all rfl

theorem create_notion_task_eq (env : NotionEnv) (http : Http) (fuel : Nat)
    (title status : String) (due_date description assignee_name : Option String) :
    agent.create_notion_task env http fuel title status due_date description assignee_name
      = notion_tools.create_notion_task env http fuel title status due_date description
          assignee_name := by
  unfold agent.create_notion_task notion_tools.create_notion_task
  simp only [find_eq]
  with_unfolding_all rfl

theorem update_notion_task_eq (env : NotionEnv) (http : Http) (fuel : Nat)
    (task_id : String) (title status due_date description assignee_name : Option String) :
    agent.update_notion_task env http fuel task_id title status due_date description
        assignee_name
      = notion_tools.update_notion_task env http fuel task_id title status due_date
          description assignee_name := by
  unfold agent.update_notion_task notion_tools.update_notion_task
  simp only [find_eq]
  with_unfolding_all rfl

theorem delete_notion_task_eq (env : NotionEnv) (http : Http) (task_id : String) :
    agent.delete_notion_task env http task_id
      = notion_tools.delete_notion_task env http task_id := by
  with_unfolding_all rfl

/-- C10: the four Notion tool functions defined inline in agent.py are
extensionally equal to the functions of the same names in
notion_tools.py: for every environment, transport oracle, pagination
fuel and argument assignment, both copies return the same result and
issue the same requests. -/
theorem C10_inline_notion_tools_equal_module_tools :
    (∀ env http, agent.show_notion_tasks env http = notion_tools.show_notion_tasks env http)
    ∧ (∀ env http fuel title status due_date description assignee_name,
        agent.create_notion_task env http fuel title status due_date description assignee_name
          = notion_tools.create_notion_task env http fuel title status due_date description
              assignee_name)
    ∧ (∀ env http fuel task_id title status due_date description assignee_name,
        agent.update_notion_task env http fuel task_id title status due_date description
            assignee_name
          = notion_tools.update_notion_task env http fuel task_id title status due_date
              description assignee_name)
    ∧ (∀ env http task_id,
        agent.delete_notion_task env http task_id
          = notion_tools.delete_notion_task env http task_id) :=
  ⟨show_notion_tasks_eq, create_notion_task_eq, update_notion_task_eq, delete_notion_task_eq⟩

/-- C4: after the agent node appends the model response to the
transcript, the loop is in the terminal END state if and only if that
response carries an empty tool-request sequence; otherwise it is about to
run the tools node. -/
theorem C4_done_iff_empty_tool_requests (llm : List Msg → Msg) (invoke : ToolCall → JVal)
    (msgs : List Msg) :
    (agent.loopStep llm invoke { phase := .AWAIT_MODEL, messages := msgs }).messages
        = msgs ++ [llm (agent.systemMessage :: msgs)]
    ∧ ((agent.loopStep llm invoke { phase := .AWAIT_MODEL, messages := msgs }).phase
          = .DONE
        ↔ (llm (agent.systemMessage :: msgs)).tool_calls = [])
    ∧ ((llm (agent.systemMessage :: msgs)).tool_calls ≠ [] →
        (agent.loopStep llm invoke { phase := .AWAIT_MODEL, messages := msgs }).phase
          = .DISPATCH_TOOLS) := by
  rw [loopStep_await]
  cases htc : (llm (agent.systemMessage :: msgs)).tool_calls with
  | nil => simp
  | cons a t => simp

/-- C4 witness: a model response with no tool requests ends the turn, one
with a tool request goes to dispatch. -/
theorem C4_witness :
    (agent.loopStep llmPlain invokeOk
        { phase := .AWAIT_MODEL, messages := [HumanMessage "hello"] }).phase
      = agent.LoopPhase.DONE
    ∧ (agent.loopStep llmToolLoop invokeOk
        { phase := .AWAIT_MODEL, messages := [HumanMessage "show my tasks"] }).phase
      = agent.LoopPhase.DISPATCH_TOOLS :=
  ⟨(C4_done_iff_empty_tool_requests llmPlain invokeOk [HumanMessage "hello"]).2.1.mpr rfl,
   (C4_done_iff_empty_tool_requests llmToolLoop invokeOk [HumanMessage "show my tasks"]).2.2
     (by simp [llmToolLoop, AIMessage])⟩

/-- C5: the compiled graph has no iteration cap: under a model oracle
that answers every invocation with a non-empty tool-request list the loop
never reaches END, however many steps are taken; and conversely the loop
reaches END only because some model invocation returned a response with
no tool requests. -/
theorem C5_no_iteration_cap (llm : List Msg → Msg) (invoke : ToolCall → JVal)
    (msgs : List Msg) :
    ((∀ input, (llm input).tool_calls ≠ []) →
      ∀ n, (agent.run llm invoke msgs n).phase ≠ .DONE)
    ∧ (∀ n, (agent.run llm invoke msgs n).phase = .DONE →
        ∃ m, m < n ∧ (agent.run llm invoke msgs m).phase = .AWAIT_MODEL
          ∧ (llm (agent.systemMessage :: (agent.run llm invoke msgs m).messages)).tool_calls
              = []) := by
  constructor
  · intro hllm n
    induction n with
    | zero => simp [agent.run]
    | succ k ih =>
      intro h
      rw [agent.run] at h
      rcases hs : agent.run llm invoke msgs k with ⟨ph, ms⟩
      rw [hs] at h
      cases ph with
      | AWAIT_MODEL =>
        rw [loopStep_await] at h
        rcases htc : (llm (agent.systemMessage :: ms)).tool_calls with _ | ⟨a, t⟩
        · exact hllm (agent.systemMessage :: ms) htc
        · rw [htc] at h
          simp at h
      | DISPATCH_TOOLS => simp [agent.loopStep] at h
      | DONE => exact ih (by rw [hs])
  · intro n
    induction n with
    | zero =>
      intro h
      simp [agent.run] at h
    | succ k ih =>
      intro h
      rw [agent.run] at h
      rcases hs : agent.run llm invoke msgs k with ⟨ph, ms⟩
      rw [hs] at h
      cases ph with
      | AWAIT_MODEL =>
        rw [loopStep_await] at h
        rcases htc : (llm (agent.systemMessage :: ms)).tool_calls with _ | ⟨a, t⟩
        · exact ⟨k, Nat.lt_succ_self k, by rw [hs], by rw [hs]; exact htc⟩
        · rw [htc] at h
          simp at h
      | DISPATCH_TOOLS => simp [agent.loopStep] at h
      | DONE =>
        rcases ih (by rw [hs]) with ⟨m, hm, h1, h2⟩
        exact ⟨m, Nat.lt_succ_of_lt hm, h1, h2⟩

/-- C5 witness: under the always-requesting oracle the loop is still not
at END after six steps, while under the plain-reply oracle it is at END
after one step. -/
theorem C5_witness :
    (agent.run llmToolLoop invokeOk [HumanMessage "show my tasks"] 6).phase
        ≠ agent.LoopPhase.DONE
    ∧ (agent.run llmPlain invokeOk [HumanMessage "hello"] 1).phase
        = agent.LoopPhase.DONE :=
  ⟨(C5_no_iteration_cap llmToolLoop invokeOk [HumanMessage "show my tasks"]).1
      (fun _ => by simp [llmToolLoop, AIMessage]) 6,
   rfl⟩

/-- C6: the tools node never aborts the loop: whatever result the
dispatcher returns for each request — success or failure — the step from
the dispatch state appends exactly one tool message per request of the
triggering assistant message and transitions back to the model-invocation
state. -/
theorem C6_tool_failure_never_aborts (llm : List Msg → Msg) (invoke : ToolCall → JVal)
    (msgs : List Msg) :
    (agent.loopStep llm invoke { phase := .DISPATCH_TOOLS, messages := msgs }).phase
        = .AWAIT_MODEL
    ∧ (agent.loopStep llm invoke { phase := .DISPATCH_TOOLS, messages := msgs }).messages
        = msgs ++ agent.tool_node invoke { messages := msgs }
    ∧ (∀ last, msgs.getLast? = some last →
        (agent.tool_node invoke { messages := msgs }).length = last.tool_calls.length) := by
  refine ⟨rfl, rfl, ?_⟩
  intro last h
  simp [agent.tool_node, h]

/-- C6 witness: dispatching a failing `github_create_repo`-style result
still returns control to the model state, with one tool message for the
one request. -/
theorem C6_witness :
    (agent.loopStep llmPlain invokeFail
        { phase := .DISPATCH_TOOLS, messages := dispatchMsgs }).phase
      = agent.LoopPhase.AWAIT_MODEL
    ∧ (agent.tool_node invokeFail { messages := dispatchMsgs }).length = 1 :=
  ⟨(C6_tool_failure_never_aborts llmPlain invokeFail dispatchMsgs).1,
   ((C6_tool_failure_never_aborts llmPlain invokeFail dispatchMsgs).2.2
       requestMsg rfl).trans rfl⟩

/-- C7: every model invocation receives the fixed system prompt prepended
to the transcript, and the system prompt is never written into the
transcript itself: starting from a transcript with no system message,
after any number of loop steps the transcript still contains no system
message, for any model oracle that returns assistant messages. -/
theorem C7_system_prompt_injected_never_stored (llm : List Msg → Msg)
    (invoke : ToolCall → JVal) (msgs : List Msg)
    (hllm : ∀ input, (llm input).role = .assistant)
    (hmsgs : ∀ m ∈ msgs, m.role ≠ .system) :
    (agent.call_llm llm { messages := msgs }).messages
        = [llm (agent.systemMessage :: msgs)]
    ∧ ∀ n, ∀ m ∈ (agent.run llm invoke msgs n).messages, m.role ≠ .system := by
  refine ⟨rfl, ?_⟩
  intro n
  induction n with
  | zero => exact hmsgs
  | succ k ih =>
    intro m hm
    rw [agent.run] at hm
    rcases hs : agent.run llm invoke msgs k with ⟨ph, ms⟩
    rw [hs] at hm
    have ihm : ∀ m ∈ ms, m.role ≠ Role.system := by
      intro m hm
      exact ih m (by rw [hs]; exact hm)
    cases ph with
    | AWAIT_MODEL =>
      rw [loopStep_await] at hm
      rcases List.mem_append.mp hm with hin | hin
      · exact ihm m hin
      · rcases List.mem_singleton.mp hin with rfl
        rw [hllm (agent.systemMessage :: ms)]
        simp
    | DISPATCH_TOOLS =>
      rcases List.mem_append.mp hm with hin | hin
      · exact ihm m hin
      · rw [tool_node_roles invoke { messages := ms } m hin]
        simp
    | DONE => exact ihm m hm

/-- C7 witness: after two steps of the loop on a one-user-message
transcript under a plain-reply assistant oracle, the system message has
not been written into the stored transcript. -/
theorem C7_witness :
    agent.systemMessage ∉ (agent.run llmPlain invokeOk [HumanMessage "hi"] 2).messages := by
  intro hmem
  exact (C7_system_prompt_injected_never_stored llmPlain invokeOk [HumanMessage "hi"]
      (fun _ => rfl)
      (by intro m hm; rw [List.mem_singleton.mp hm]; decide)).2 2 agent.systemMessage hmem rfl

/-- C3 counterexample: `show_notion_tasks` — a registered tool — has no
try/except, so with credentials configured and a transport that raises a
connection error, the exception propagates past the call boundary
instead of being converted into a success=false result: the invocation
evaluates to an exception outcome. -/
theorem C3_counterexample_transport_exception_escapes :
    (agent.show_notion_tasks envOk raiseAll).1
      = Except.error "ConnectionError: failed to establish a new connection" := rfl

/-- Every GitHub tool returns a dict whose first entry is the success
flag: the whole body runs under the `ghWrap` try/except. -/
theorem ghWrap_flagged (x : Except String (List (String × JVal))) :
    success_flagged (github_tools.ghWrap x) := by
  cases x with
  | ok payload => exact Or.inl rfl
  | error e => exact Or.inr rfl

/-- C3 (amended): every one of the 22 GitHub tools runs its whole body
under try/except and returns a success-flagged result dict for every
environment, oracle behaviour and argument assignment — it never raises
past the call boundary.  The four registered Notion tools return
success=false dicts synchronously when credentials are missing (issuing
no HTTP request) and when the API answers a non-200 status, but an
exception raised by the HTTP transport propagates past the call
boundary, as does a JSON parse failure of a 200 response body for the
three tools that call `response.json()`; `delete_notion_task` never
parses the body and succeeds on any 200 response. -/
theorem C3_tool_error_containment :
    (∀ env oracle, success_flagged (github_tools.github_whoami env oracle))
    ∧ (∀ env oracle visibility limit,
        success_flagged (github_tools.github_list_repos env oracle visibility limit))
    ∧ (∀ env oracle name description is_private auto_init,
        success_flagged
          (github_tools.github_create_repo env oracle name description is_private auto_init))
    ∧ (∀ env oracle owner repo,
        success_flagged (github_tools.github_delete_repo env oracle owner repo))
    ∧ (∀ env oracle owner repo branch limit,
        success_flagged (github_tools.github_list_commits env oracle owner repo branch limit))
    ∧ (∀ env oracle owner repo limit,
        success_flagged (github_tools.github_list_branches env oracle owner repo limit))
    ∧ (∀ env oracle owner repo new_branch source_branch,
        success_flagged
          (github_tools.github_create_branch env oracle owner repo new_branch source_branch))
    ∧ (∀ env oracle owner repo branch,
        success_flagged (github_tools.github_delete_branch env oracle owner repo branch))
    ∧ (∀ env oracle owner repo path message content branch,
        success_flagged
          (github_tools.github_create_file env oracle owner repo path message content branch))
    ∧ (∀ env oracle owner repo path message content branch,
        success_flagged
          (github_tools.github_update_file env oracle owner repo path message content branch))
    ∧ (∀ env oracle owner repo path message branch,
        success_flagged
          (github_tools.github_delete_file env oracle owner repo path message branch))
    ∧ (∀ env oracle owner repo state limit,
        success_flagged (github_tools.github_list_issues env oracle owner repo state limit))
    ∧ (∀ env oracle owner repo title body,
        success_flagged (github_tools.github_create_issue env oracle owner repo title body))
    ∧ (∀ env oracle owner repo number,
        success_flagged (github_tools.github_close_issue env oracle owner repo number))
    ∧ (∀ env oracle owner repo state limit,
        success_flagged (github_tools.github_list_prs env oracle owner repo state limit))
    ∧ (∀ env oracle owner repo title body head base,
        success_flagged
          (github_tools.github_create_pr env oracle owner repo title body head base))
    ∧ (∀ env oracle owner repo number commit_message,
        success_flagged
          (github_tools.github_merge_pr env oracle owner repo number commit_message))
    ∧ (∀ env oracle owner repo username permission,
        success_flagged
          (github_tools.github_add_collaborator env oracle owner repo username permission))
    ∧ (∀ env oracle owner repo username,
        success_flagged (github_tools.github_remove_collaborator env oracle owner repo username))
    ∧ (∀ env oracle query limit,
        success_flagged (github_tools.github_search_repositories env oracle query limit))
    ∧ (∀ env oracle query limit,
        success_flagged (github_tools.github_search_issues env oracle query limit))
    ∧ (∀ env oracle, success_flagged (github_tools.github_rate_limit env oracle))
    ∧ (∀ env http, (envFalsy env.DATABASE_ID || envFalsy env.NOTION_TOKEN) = true →
        agent.show_notion_tasks env http
          = (.ok (.obj [("success", .bool false),
              ("error", .str "DATABASE_ID or NOTION_TOKEN is not set.")]), []))
    ∧ (∀ env http fuel title status due_date description assignee_name,
        (envFalsy env.DATABASE_ID || envFalsy env.NOTION_TOKEN) = true →
        agent.create_notion_task env http fuel title status due_date description assignee_name
          = (.ok (.obj [("success", .bool false),
              ("error", .str "DATABASE_ID or NOTION_TOKEN is not set.")]), []))
    ∧ (∀ env http fuel task_id title status due_date description assignee_name,
        envFalsy env.NOTION_TOKEN = true →
        agent.update_notion_task env http fuel task_id title status due_date description
            assignee_name
          = (.ok (.obj [("success", .bool false),
              ("error", .str "NOTION_TOKEN is not set.")]), []))
    ∧ (∀ env http task_id, envFalsy env.NOTION_TOKEN = true →
        agent.delete_notion_task env http task_id
          = (.ok (.obj [("success", .bool false),
              ("error", .str "NOTION_TOKEN is not set.")]), []))
    ∧ (∀ env http sc txt body, (envFalsy env.DATABASE_ID || envFalsy env.NOTION_TOKEN) = false →
        (∀ req, http req = .resp sc txt body) → sc ≠ 200 →
        (agent.show_notion_tasks env http).1
          = .ok (.obj [("success", .bool false), ("status_code", .num sc),
              ("error", .str txt)]))
    ∧ (∀ env http fuel title status sc txt body,
        (envFalsy env.DATABASE_ID || envFalsy env.NOTION_TOKEN) = false →
        (∀ req, http req = .resp sc txt body) → sc ≠ 200 →
        (agent.create_notion_task env http fuel title status none none none).1
          = .ok (.obj [("success", .bool false), ("status_code", .num sc),
              ("error", .str txt)]))
    ∧ (∀ env http fuel task_id title sc txt body, envFalsy env.NOTION_TOKEN = false →
        (∀ req, http req = .resp sc txt body) → sc ≠ 200 →
        (agent.update_notion_task env http fuel task_id (some title) none none none none).1
          = .ok (.obj [("success", .bool false), ("status_code", .num sc),
              ("error", .str txt)]))
    ∧ (∀ env http task_id sc txt body, envFalsy env.NOTION_TOKEN = false →
        (∀ req, http req = .resp sc txt body) → sc ≠ 200 →
        (agent.delete_notion_task env http task_id).1
          = .ok (.obj [("success", .bool false), ("status_code", .num sc),
              ("error", .str txt)]))
    ∧ (∀ env http e, (envFalsy env.DATABASE_ID || envFalsy env.NOTION_TOKEN) = false →
        (∀ req, http req = .raise e) →
        (agent.show_notion_tasks env http).1 = .error e)
    ∧ (∀ env http fuel title status e,
        (envFalsy env.DATABASE_ID || envFalsy env.NOTION_TOKEN) = false →
        (∀ req, http req = .raise e) →
        (agent.create_notion_task env http fuel title status none none none).1 = .error e)
    ∧ (∀ env http fuel task_id title e, envFalsy env.NOTION_TOKEN = false →
        (∀ req, http req = .raise e) →
        (agent.update_notion_task env http fuel task_id (some title) none none none none).1
          = .error e)
    ∧ (∀ env http task_id e, envFalsy env.NOTION_TOKEN = false →
        (∀ req, http req = .raise e) →
        (agent.delete_notion_task env http task_id).1 = .error e)
    ∧ (∀ env http txt e, (envFalsy env.DATABASE_ID || envFalsy env.NOTION_TOKEN) = false →
        (∀ req, http req = .resp 200 txt (.error e)) →
        (agent.show_notion_tasks env http).1 = .error e)
    ∧ (∀ env http fuel title status txt e,
        (envFalsy env.DATABASE_ID || envFalsy env.NOTION_TOKEN) = false →
        (∀ req, http req = .resp 200 txt (.error e)) →
        (agent.create_notion_task env http fuel title status none none none).1 = .error e)
    ∧ (∀ env http fuel task_id title txt e, envFalsy env.NOTION_TOKEN = false →
        (∀ req, http req = .resp 200 txt (.error e)) →
        (agent.update_notion_task env http fuel task_id (some title) none none none none).1
          = .error e)
    ∧ (∀ env http task_id txt body, envFalsy env.NOTION_TOKEN = false →
        (∀ req, http req = .resp 200 txt body) →
        (agent.delete_notion_task env http task_id).1
          = .ok (.obj [("success", .bool true), ("task_id", .str task_id)])) := by
  refine ⟨?_, ?_, ?_, ?_, ?_, ?_, ?_, ?_, ?_, ?_, ?_, ?_, ?_, ?_, ?_, ?_, ?_, ?_, ?_, ?_,
    ?_, ?_, ?_, ?_, ?_, ?_, ?_, ?_, ?_, ?_, ?_, ?_, ?_, ?_, ?_, ?_, ?_, ?_⟩
  · intros; exact ghWrap_flagged _
  · intros; exact ghWrap_flagged _
  · intros; exact ghWrap_flagged _
  · intros; exact ghWrap_flagged _
  · intros; exact ghWrap_flagged _
  · intros; exact ghWrap_flagged _
  · intros; exact ghWrap_flagged _
  · intros; exact ghWrap_flagged _
  · intros; exact ghWrap_flagged _
  · intros; exact ghWrap_flagged _
  · intros; exact ghWrap_flagged _
  · intros; exact ghWrap_flagged _
  · intros; exact ghWrap_flagged _
  · intros; exact ghWrap_flagged _
  · intros; exact ghWrap_flagged _
  · intros; exact ghWrap_flagged _
  · intros; exact ghWrap_flagged _
  · intros; exact ghWrap_flagged _
  · intros; exact ghWrap_flagged _
  · intros; exact ghWrap_flagged _
  · intros; exact ghWrap_flagged _
  · intros; exact ghWrap_flagged _
  · intro env http h
    simp [agent.show_notion_tasks, h]
  · intro env http fuel title status due_date description assignee_name h
    simp [agent.create_notion_task, h]
  · intro env http fuel task_id title status due_date description assignee_name h
    simp [agent.update_notion_task, h]
  · intro env http task_id h
    simp [agent.delete_notion_task, h]
  · intro env http sc txt body hc hr hsc
    simp [agent.show_notion_tasks, hc, hr, hsc]
  · intro env http fuel title status sc txt body hc hr hsc
    simp [agent.create_notion_task, agent.create_notion_task_send, strTruthy, hc, hr, hsc]
  · intro env http fuel task_id title sc txt body hc hr hsc
    simp [agent.update_notion_task, agent.update_notion_task_send, hc, hr, hsc]
  · intro env http task_id sc txt body hc hr hsc
    simp [agent.delete_notion_task, hc, hr, hsc]
  · intro env http e hc hr
    simp [agent.show_notion_tasks, hc, hr]
  · intro env http fuel title status e hc hr
    simp [agent.create_notion_task, agent.create_notion_task_send, strTruthy, hc, hr]
  · intro env http fuel task_id title e hc hr
    simp [agent.update_notion_task, agent.update_notion_task_send, hc, hr]
  · intro env http task_id e hc hr
    simp [agent.delete_notion_task, hc, hr]
  · intro env http txt e hc hr
    simp [agent.show_notion_tasks, hc, hr]
  · intro env http fuel title status txt e hc hr
    simp [agent.create_notion_task, agent.create_notion_task_send, strTruthy, hc, hr]
  · intro env http fuel task_id title txt e hc hr
    simp [agent.update_notion_task, agent.update_notion_task_send, hc, hr]
  · intro env http task_id txt body hc hr
    simp [agent.delete_notion_task, hc, hr]

/-- C3 witness: the amended statement at concrete inputs — two GitHub
tools on an all-failing oracle still return success-flagged dicts; the
Notion credentials guard, a 404 response, a raising transport and a
non-JSON 200 body behave as stated. -/
theorem C3_witness :
    success_flagged (github_tools.github_whoami ghEnvNone ghOracleDown)
    ∧ success_flagged (github_tools.github_create_repo ghEnvNone ghOracleDown "x" "" false true)
    ∧ agent.show_notion_tasks envNone raiseAll
        = (.ok (.obj [("success", .bool false),
            ("error", .str "DATABASE_ID or NOTION_TOKEN is not set.")]), [])
    ∧ (agent.show_notion_tasks envOk resp404).1
        = .ok (.obj [("success", .bool false), ("status_code", .num 404),
            ("error", .str "not found")])
    ∧ (agent.show_notion_tasks envOk raiseAll).1
        = .error "ConnectionError: failed to establish a new connection"
    ∧ (agent.update_notion_task envOk resp200Bad 0 "task-1" (some "T") none none none none).1
        = .error "JSONDecodeError: Expecting value" := by
  obtain ⟨g1, g2, g3, g4, g5, g6, g7, g8, g9, g10, g11, g12, g13, g14, g15, g16, g17, g18,
    g19, g20, g21, g22, n1, n2, n3, n4, n5, n6, n7, n8, n9, n10, n11, n12, n13, n14, n15,
    n16⟩ := C3_tool_error_containment
  exact ⟨g1 ghEnvNone ghOracleDown,
    g3 ghEnvNone ghOracleDown "x" "" false true,
    n1 envNone raiseAll rfl,
    n5 envOk resp404 404 "not found" (.error "Expecting value: line 1 column 1 (char 0)")
      rfl (fun _ => rfl) (by decide),
    n9 envOk raiseAll "ConnectionError: failed to establish a new connection"
      rfl (fun _ => rfl),
    n15 envOk resp200Bad 0 "task-1" "T" "<html>" "JSONDecodeError: Expecting value"
      rfl (fun _ => rfl)⟩

/-- C9 counterexample: with `NOTION_TOKEN` unset, calling
`update_notion_task` with only `task_id` returns the missing-token error,
not the claimed `"No fields provided to update."` error, so the claim
does not hold for every call; no HTTP request is issued either way. -/
theorem C9_counterexample_missing_token :
    agent.update_notion_task envNone raiseAll 0 "task-1" none none none none none
      = (.ok (.obj [("success", .bool false), ("error", .str "NOTION_TOKEN is not set.")]), [])
    ∧ ("NOTION_TOKEN is not set." : String) ≠ "No fields provided to update." :=
  ⟨rfl, by decide⟩

/-- C9 (amended): whenever `NOTION_TOKEN` is set (non-empty), calling
`update_notion_task` with `title`, `status`, `due_date`, `description`
and `assignee_name` all `None` returns
`{"success": False, "error": "No fields provided to update."}` and issues
no HTTP request, for every transport oracle, fuel and task id. -/
theorem C9_update_no_fields_no_request (env : NotionEnv) (http : Http) (fuel : Nat)
    (task_id : String) (htok : envFalsy env.NOTION_TOKEN = false) :
    agent.update_notion_task env http fuel task_id none none none none none
      = (.ok (.obj [("success", .bool false),
          ("error", .str "No fields provided to update.")]), []) := by
  simp [agent.update_notion_task, agent.update_notion_task_send, htok]

/-- C9 witness: the amended statement at a configured environment, a
raising transport and fuel zero. -/
theorem C9_witness :
    agent.update_notion_task envOk raiseAll 0 "task-1" none none none none none
      = (.ok (.obj [("success", .bool false),
          ("error", .str "No fields provided to update.")]), []) :=
  C9_update_no_fields_no_request envOk raiseAll 0 "task-1" rfl
